import Mathlib

/-!
Verification of the StockSprintStressTest action/scenario core.

The TypeScript sources are shallowly embedded:

* the pure state parser (`parseCurrency`, the contract-card grammar) becomes
  pure Lean functions over `Option String` and `ℚ`;
* each Playwright-driven action method of `GameActions` becomes a computation
  in an `Act` monad: the live page (together with the file system used by
  `register`) is modelled as a `Script`, an arbitrary stream of primitive-call
  outcomes, each outcome being a returned value or a thrown error.  A state
  carries the number of primitive calls performed so far and a trace of the
  performed calls, so "no UI interaction happened" and "a click was issued"
  are expressed on the trace.  JavaScript try/catch becomes the `attempt`
  combinator; JavaScript numbers are modelled as `ℚ`;
* the persona decision rules of `stress.spec.ts` become pure functions of the
  observed snapshot values and of the `Math.random()` draws.
-/

namespace Stress

/-! ## State parser (`parseCurrency` from GameActions) -/

/-- A character kept by the cleaning regex of `parseCurrency`
(`text.replace` keeping only digits, the dot and the minus sign). -/
def isNumericChar (c : Char) : Bool := c.isDigit || c = '.' || c = '-'

/-- The cleaning step of `parseCurrency`: drop every character except
digits, the dot and the minus sign. -/
def stripNonNumeric (s : String) : String := String.mk (s.data.filter isNumericChar)

/-- Value of a digit string, most significant digit first. -/
def digitsToNat (cs : List Char) : Nat := cs.foldl (fun acc c => acc * 10 + (c.toNat - 48)) 0

/-- Split a character list into its longest digit prefix and the rest. -/
def takeDigits : List Char → List Char × List Char
  | [] => ([], [])
  | c :: rest =>
    if c.isDigit then
      let p := takeDigits rest
      (c :: p.1, p.2)
    else ([], c :: rest)

/-- Unsigned part of JavaScript `parseFloat` restricted to strings over
digits, dots and minus signs (the only characters surviving the cleaning
step): longest prefix of the form `digits`, `digits.digits`, `.digits`,
value read exactly into `ℚ`; `none` models `NaN`. -/
def parseDecimal (cs : List Char) : Option ℚ :=
  let p := takeDigits cs
  match p.2 with
  | '.' :: rest2 =>
    let q := takeDigits rest2
    if p.1.isEmpty && q.1.isEmpty then none
    else some ((digitsToNat p.1 : ℚ) + (digitsToNat q.1 : ℚ) / (10 : ℚ) ^ q.1.length)
  | _ => if p.1.isEmpty then none else some (digitsToNat p.1 : ℚ)

/-- JavaScript `parseFloat` on a cleaned string: an optional leading minus
sign followed by a decimal literal; `none` models `NaN`. -/
def jsParseFloat (s : String) : Option ℚ :=
  match s.data with
  | '-' :: rest => (parseDecimal rest).map (fun q => -q)
  | cs => parseDecimal cs

/-- `GameActions.parseCurrency`: `null` and the empty string map to `0`
(the `if (!text)` guard), otherwise the string is cleaned and parsed as a
decimal, `NaN` mapping to `0`. -/
def parseCurrency (text : Option String) : ℚ :=
  match text with
  | none => 0
  | some t =>
    if t = "" then 0
    else
      match jsParseFloat (stripNonNumeric t) with
      | none => 0
      | some v => v

/-! ## The `Act` monad: scripted page behaviour, call counter, call trace -/

/-- Value returned by a successful primitive call of the automation surface.
`listV` is the value of a `page.evaluate` returning a string array (the
dialogue-text heuristic of `interactWithLoanShark` runs inside the browser,
so its output is part of the page behaviour). -/
inductive PrimVal
  | unitV
  | boolV (b : Bool)
  | strV (s : Option String)
  | natV (n : Nat)
  | listV (l : List String)
deriving DecidableEq

/-- Outcome of one primitive call: a returned value or a thrown error. -/
inductive Response
  | ok (v : PrimVal)
  | throw (msg : String)
deriving DecidableEq

def Response.isOk : Response → Bool
  | .ok _ => true
  | .throw _ => false

/-- A page behaviour: the outcome of the `k`-th primitive call of the run. -/
structure Script where
  resp : Nat → Response

/-- The kind of a primitive call, for the call trace. -/
inductive PrimKind
  | clickCall | fillCall | pressCall | typeCall | setValCall | focusCall | blurCall
  | waitVisCall | waitHidCall | textCall | htmlCall | pauseCall
  | visCall | hidCall | disCall | countCall | widthCall | classCall | valCall
  | shotCall | urlCall | fsCall
  | navCall | waitUrlCall | scrollCall | attrCall | evalCall
deriving DecidableEq

/-- One performed primitive call: its kind and the selector it addressed. -/
structure Event where
  kind : PrimKind
  sel : String
deriving DecidableEq

/-- Mutating UI interactions: clicks, keystrokes and value writes. -/
def mutatingEvent (e : Event) : Bool :=
  match e.kind with
  | .clickCall => true
  | .fillCall => true
  | .pressCall => true
  | .typeCall => true
  | .setValCall => true
  | _ => false

/-- Run state: how many primitive calls were performed, and their trace. -/
structure ActState where
  idx : Nat
  trace : List Event
deriving DecidableEq

/-- An action computation: given the page behaviour and the run state it
produces a value or an uncaught error, plus the new run state. -/
def Act (α : Type) : Type := Script → ActState → Except String α × ActState

instance : Monad Act where
  pure a := fun _ s => (.ok a, s)
  bind m f := fun sc s =>
    match m sc s with
    | (.ok a, s1) => f a sc s1
    | (.error e, s1) => (.error e, s1)

def vToText : PrimVal → Option String
  | .strV s => s
  | _ => none

def vToBool : PrimVal → Bool
  | .boolV b => b
  | _ => false

def vToNat : PrimVal → Nat
  | .natV n => n
  | _ => 0

def vToList : PrimVal → List String
  | .listV l => l
  | _ => []

/-- Perform one primitive call: consume the next scripted outcome, record the
call in the trace, propagate a thrown error. -/
def prim (k : PrimKind) (sel : String) (f : PrimVal → α) : Act α := fun sc s =>
  match sc.resp s.idx with
  | .ok v => (.ok (f v), ⟨s.idx + 1, s.trace ++ [⟨k, sel⟩]⟩)
  | .throw e => (.error e, ⟨s.idx + 1, s.trace ++ [⟨k, sel⟩]⟩)

/-- JavaScript `try m catch (e) h(e)`. -/
def attempt (m : Act α) (h : String → Act α) : Act α := fun sc s =>
  match m sc s with
  | (.ok a, s1) => (.ok a, s1)
  | (.error e, s1) => h e sc s1

/-! ### Primitive calls of the automation surface -/

def click (sel : String) : Act Unit := prim .clickCall sel fun _ => ()

def fillInput (sel text : String) : Act Unit := prim .fillCall (sel ++ " <- " ++ text) fun _ => ()

def pressKey (k : String) : Act Unit := prim .pressCall k fun _ => ()

def typeText (sel text : String) : Act Unit := prim .typeCall (sel ++ " <- " ++ text) fun _ => ()

/-- The low-level value setter plus synthetic input/change/blur events used by
`handleLoan` to fill the amount field. -/
def setValueEvents (sel text : String) : Act Unit :=
  prim .setValCall (sel ++ " <- " ++ text) fun _ => ()

def focusInput (sel : String) : Act Unit := prim .focusCall sel fun _ => ()

def blurInput (sel : String) : Act Unit := prim .blurCall sel fun _ => ()

def waitVisible (sel : String) : Act Unit := prim .waitVisCall sel fun _ => ()

def waitHidden (sel : String) : Act Unit := prim .waitHidCall sel fun _ => ()

def textContent (sel : String) : Act (Option String) := prim .textCall sel vToText

def innerHtml (sel : String) : Act (Option String) := prim .htmlCall sel vToText

/-- `page.waitForTimeout(ms)`. -/
def pause (ms : Nat) : Act Unit := prim .pauseCall (toString ms) fun _ => ()

def isVisibleRaw (sel : String) : Act Bool := prim .visCall sel vToBool

/-- `locator.isVisible().catch(() => false)`. -/
def isVisibleOrFalse (sel : String) : Act Bool := attempt (isVisibleRaw sel) (fun _ => pure false)

/-- `locator.isHidden().catch(() => true)`. -/
def isHiddenOrTrue (sel : String) : Act Bool :=
  attempt (prim .hidCall sel vToBool) (fun _ => pure true)

def isDisabledQ (sel : String) : Act Bool := prim .disCall sel vToBool

def countQ (sel : String) : Act Nat := prim .countCall sel vToNat

/-- `input.evaluate(el => getComputedStyle(el).width)`. -/
def widthQ (sel : String) : Act (Option String) := prim .widthCall sel vToText

/-- `button.evaluate(el => el.classList.contains(adm-button-fill-solid))`. -/
def classActiveQ (sel : String) : Act Bool := prim .classCall sel vToBool

def inputValueQ (sel : String) : Act (Option String) := prim .valCall sel vToText

def screenshot (p : String) : Act Unit := prim .shotCall p fun _ => ()

def pageUrl : Act String := prim .urlCall "page.url" fun v => (vToText v).getD ""

def fsExists (p : String) : Act Bool := prim .fsCall ("exists " ++ p) vToBool

def fsMkdir (p : String) : Act Unit := prim .fsCall ("mkdir " ++ p) fun _ => ()

def fsRead (p : String) : Act Unit := prim .fsCall ("read " ++ p) fun _ => ()

def fsWrite (p : String) : Act Unit := prim .fsCall ("write " ++ p) fun _ => ()

/-- `page.goto(url)`. -/
def gotoPage (u : String) : Act Unit := prim .navCall u fun _ => ()

/-- `page.waitForURL(pattern)`. -/
def waitUrl (pat : String) : Act Unit := prim .waitUrlCall pat fun _ => ()

/-- `page.evaluate(() => localStorage.getItem(key))`. -/
def evalStorage (key : String) : Act (Option String) := prim .evalCall key vToText

def getAttr (sel name : String) : Act (Option String) :=
  prim .attrCall (sel ++ " @" ++ name) vToText

def scrollIntoView (sel : String) : Act Unit := prim .scrollCall sel fun _ => ()

/-- A `page.evaluate` returning a string array. -/
def evalTexts (sel : String) : Act (List String) := prim .evalCall sel vToList

/-! ### Shared failure handlers (the catch blocks of the action methods) -/

/-- Best-effort diagnostic screenshot: its own failure is swallowed. -/
def shotAttempt (p : String) : Act Unit := attempt (screenshot p) (fun _ => pure ())

/-- Catch block of the boolean actions: best-effort screenshot, then `false`. -/
def failFalse (p : String) : Act Bool := do
  shotAttempt p
  pure false

/-- Catch block of the payload actions: best-effort screenshot, then `null`. -/
def failNone (p : String) : Act (Option α) := do
  shotAttempt p
  pure none

/-! ### String helpers mirroring the JavaScript ones -/

/-- Does the second list start with the first one. -/
def leadMatch : List Char → List Char → Bool
  | [], _ => true
  | _ :: _, [] => false
  | a :: as, b :: bs => a = b && leadMatch as bs

/-- Does `needle` occur contiguously in `hay`. -/
def subSearch (needle : List Char) : List Char → Bool
  | [] => needle.isEmpty
  | c :: rest => leadMatch needle (c :: rest) || subSearch needle rest

/-- JavaScript `hay.includes(needle)`. -/
def strIncludes (hay needle : String) : Bool := subSearch needle.data hay.data

/-- JavaScript `text?.includes(needle)` on a nullable string (null gives a
falsy result). -/
def optIncludes (t : Option String) (needle : String) : Bool :=
  match t with
  | some s => strIncludes s needle
  | none => false

/-- JavaScript falsiness of a nullable string (`!token`): null and the empty
string are falsy. -/
def jsFalsyStr (t : Option String) : Bool :=
  match t with
  | none => true
  | some s => s = ""

/-- JavaScript `s.padStart(2, "0")` for the strings produced by
`index.toString()` (length at least 1). -/
def padStart2 (s : String) : String := if s.length ≥ 2 then s else "0" ++ s

/-- `texts.length > 0 ? texts[0] : ""` of `interactWithLoanShark`. -/
def headOrEmpty (l : List String) : String :=
  match l with
  | [] => ""
  | t :: _ => t

/-! ## Data model -/

/-- `AssetData` of GameActions: 總資產, 現金, 股票市值, 持股數量, 負債. -/
structure AssetData where
  totalAssets : ℚ
  cash : ℚ
  stockValue : ℚ
  stockCount : ℚ
  debt : ℚ
deriving DecidableEq

/-- One entry of `ContractData.contracts`. -/
structure ContractItem where
  type : String
  leverage : ℚ
  amount : ℚ
deriving DecidableEq

/-- `ContractData` of GameActions: 保證金 and the contract list. -/
structure ContractData where
  margin : ℚ
  contracts : List ContractItem
deriving DecidableEq

inductive Direction
  | LONG
  | SHORT
deriving DecidableEq

inductive LoanAction
  | BORROW
  | REPAY
deriving DecidableEq

/-- A quiz answer option. -/
inductive QuizOption
  | A
  | B
  | C
  | D
deriving DecidableEq

def quizOptionStr : QuizOption → String
  | .A => "A"
  | .B => "B"
  | .C => "C"
  | .D => "D"

/-! ## Selectors (the locator strings hard-coded by the actions) -/

def countdownSel : String := "span hasText dd:dd"
def spotTabSel : String := "button has-text 現貨"
def buyModeSwitchSel : String := "div text 買/賣"
def qtyInputSel : String := "input[type=number] first"
def buyButtonSel : String := "button has-text 買入"
def dialogSel : String := ".adm-center-popup-body or [role=dialog]"
def dialogConfirmSel : String := ".adm-dialog-footer button nth 1"
def contractTabSel : String := "button has-text 合約"
def directionSel (d : Direction) : String :=
  "button has-text " ++ (match d with | .LONG => "做多" | .SHORT => "做空")
def contractInputsSel : String := "contract section input[type=number]:visible"
def contractInputSel (i : Nat) : String := contractInputsSel ++ " nth " ++ toString i
def orderButtonSel : String := "button has-text 下單"
def marginDisplaySel : String := "div has-text 保證金:"
def cancelButtonSel : String := "button has-text 撤銷今日訂單"
def loanModalTitleSel : String := "span has-text 地下錢莊"
def loanModeSwitchSel : String := "div text 借/還"
def loanInputsSel : String := "loan section input[type=number]:visible"
def loanInputSel (i : Nat) : String := loanInputsSel ++ " nth " ++ toString i
def loanSubmitSel (a : LoanAction) : String :=
  "button has-text " ++ (match a with | .BORROW => "借款" | .REPAY => "還款")
def loanButtonSel : String := "button with img[alt=地下錢莊]"
def merchantSel : String := "img[alt=沈梟] or img[src*=merchant]"
def closeButtonSel : String := "span[role=img] close or svg path"
def toastSuccessSel : String := ".adm-toast has-text 成功"
def toastErrorSel : String := ".adm-toast has-text 失敗/不足/錯誤"
def totalAssetsLabelSel : String := "div text 總資產"
def totalAssetsValueSel : String := "div[style*=font-size: 36px]"
def cashValueSel : String := "現金 parent div nth 1"
def stockCountValueSel : String := "股票 parent div nth 1"
def stockValueValueSel : String := "股票現值 parent div nth 1"
def debtValueSel : String := "負債 parent div nth 1"
def marginLabelSel : String := "div text 合約保證金"
def marginValueSel : String := "合約保證金 parent div nth 1"
def contractCardsSel : String := "contract cards 做多/做空 X倍"
def cardSel (i : Nat) : String := contractCardsSel ++ " nth " ++ toString i
def cardLotsSel (i : Nat) : String := "contract card lots X張 nth " ++ toString i
def registerOpenSel : String := "button has-text 線上開戶"
def registerModalSel : String := ".adm-center-popup-body"
def displayNameSel : String := "modal input[id*=displayName]"
def usernameSel : String := "modal input[id*=username]"
def passwordSel : String := "modal input[id*=password] first"
def confirmPasswordSel : String := "modal input[id*=confirmPassword]"
def submitTextSel : String := "button has-text 送出"
def registerToastSel : String := ".ant-message-notice-content has-text 註冊成功"
def usersJsonPath : String := "tests/stress/data/users.json"
def dataDirPath : String := "tests/stress/data"
def loginUserSel : String := "input[id*=username]"
def loginPassSel : String := "input[id*=password]"
def loginSubmitSel : String := "button[type=submit]"
def avatarAreaSel : String := ".adm-avatar first"
def changeAvatarOptionSel : String := "div text 更改頭像"
def avatarCellSel (file : String) : String := ".adm-grid-item with img[alt=" ++ file ++ "]"
def saveButtonSel : String := "button text 儲存"
def avatarImgSel : String := ".adm-avatar img first"
def merchantImageSel : String := "img[alt=黑心商人] first"
def dialogueTextsSel : String := "dialogue-shaped div texts by frequency"
def quizTitleSel : String := "text 🧠 機智問答 first"
def quizOverlaySel : String := "[style*=z-index: 9999] with quiz title"
def miniGameButtonSel : String := "button with img[alt=小遊戲]"
def quizCountdownSel : String := "text 1-3 countdown first"
def anyOptionButtonSel : String := "button text A-D dot first"
def optionButtonSel (o : QuizOption) : String := "button text " ++ quizOptionStr o ++ ". first"
def submittedHintSel : String := "text 已提交答案，等待結算..."
def quizResultSel : String := "div text 正確答案：A-D"

/-! ## Action 00: waitForGameStart -/

/-- The re-sampling loop of `waitForGameStart` (step 6 of the source): every
2 seconds read the countdown again and return `true` once it differs from the
second sample.  The source loop is `while (true)`; the `fuel` argument only
bounds how far the unbounded loop is observed, `none` meaning the loop is
still running after `fuel` iterations. -/
def gameStartLoop (secondCountdown : Option String) : Nat → Act (Option Bool)
  | 0 => pure none
  | n + 1 => do
    pause 2000
    let currentCountdown ← textContent countdownSel
    if currentCountdown ≠ secondCountdown then pure (some true)
    else gameStartLoop secondCountdown n

/-- Try block of `waitForGameStart`: wait (without timeout) for the countdown
element, sample it, sample it again 2 seconds later, return `true` on a
change, otherwise keep re-sampling every 2 seconds. -/
def waitForGameStartBody (fuel : Nat) : Act (Option Bool) := do
  waitVisible countdownSel
  let firstCountdown ← textContent countdownSel
  pause 2000
  let secondCountdown ← textContent countdownSel
  if firstCountdown ≠ secondCountdown then pure (some true)
  else gameStartLoop secondCountdown fuel

/-- `GameActions.waitForGameStart`: the catch block just logs and returns
`false` (`some false` here; `none` means the unbounded wait is still
running). -/
def waitForGameStart (fuel : Nat) : Act (Option Bool) :=
  attempt (waitForGameStartBody fuel) (fun _ => pure (some false))

/-! ## Action 01: register -/

/-- Try block of `GameActions.register`: open the signup modal, fill the four
fields inside it, submit, wait for the success toast, then append the
credential to users.json (read-merge-write on the external file). -/
def registerBody (nick user pass : String) : Act Bool := do
  click registerOpenSel
  waitVisible registerModalSel
  fillInput displayNameSel nick
  fillInput usernameSel user
  fillInput passwordSel pass
  fillInput confirmPasswordSel pass
  click submitTextSel
  waitVisible registerToastSel
  let dirExists ← fsExists dataDirPath
  (if dirExists = false then fsMkdir dataDirPath else pure ())
  let fileExists ← fsExists usersJsonPath
  (if fileExists then fsRead usersJsonPath else pure ())
  fsWrite usersJsonPath
  pure true

/-- `GameActions.register`: on any exception, best-effort screenshot and
`false`. -/
def register (nick user pass : String) : Act Bool :=
  attempt (registerBody nick user pass) (fun _ => failFalse "action-01-register-error")

/-! ## Action 04: readAssets -/

/-- Try block of `GameActions.readAssets`: wait for the anchor label 總資產,
then read and parse the five labelled fields. -/
def readAssetsBody : Act (Option AssetData) := do
  pause 2000
  waitVisible totalAssetsLabelSel
  let totalAssetsText ← textContent totalAssetsValueSel
  let totalAssets := parseCurrency totalAssetsText
  let cashText ← textContent cashValueSel
  let cash := parseCurrency cashText
  let stockCountText ← textContent stockCountValueSel
  let stockCount := parseCurrency stockCountText
  let stockValueText ← textContent stockValueValueSel
  let stockValue := parseCurrency stockValueText
  let debtText ← textContent debtValueSel
  let debt := parseCurrency debtText
  pure (some { totalAssets, cash, stockValue, stockCount, debt })

/-- `GameActions.readAssets`: on any exception, best-effort screenshot and
`null`. -/
def readAssets : Act (Option AssetData) :=
  attempt readAssetsBody (fun _ => failNone "action-04-read-assets-error")

/-! ## Action 05: readContracts -/

/-- The contract-card first-line grammar `(做多|做空)\s+(\d+(\.\d+)?)倍`,
matched at the current position: direction word, at least one whitespace,
digits with an optional fraction, the 倍 suffix. -/
def matchTail (rest : List Char) : Option ℚ :=
  let ws := rest.takeWhile Char.isWhitespace
  let r1 := rest.dropWhile Char.isWhitespace
  if ws.isEmpty then none
  else
    let p := takeDigits r1
    if p.1.isEmpty then none
    else
      match p.2 with
      | '.' :: r3 =>
        let q := takeDigits r3
        if q.1.isEmpty then none
        else
          match q.2 with
          | '倍' :: _ => some ((digitsToNat p.1 : ℚ) + (digitsToNat q.1 : ℚ) / (10 : ℚ) ^ q.1.length)
          | _ => none
      | '倍' :: _ => some (digitsToNat p.1 : ℚ)
      | _ => none

def matchAt : List Char → Option (String × ℚ)
  | '做' :: '多' :: rest => (matchTail rest).map (fun q => ("LONG", q))
  | '做' :: '空' :: rest => (matchTail rest).map (fun q => ("SHORT", q))
  | _ => none

/-- Regex search (first match anywhere in the line). -/
def searchContract : List Char → Option (String × ℚ)
  | [] => none
  | c :: rest =>
    match matchAt (c :: rest) with
    | some r => some r
    | none => searchContract rest

/-- `firstLineText?.match(regex)` of `readContracts`, with the type and the
parsed leverage of the captured groups. -/
def matchContractLine (t : Option String) : Option (String × ℚ) :=
  match t with
  | none => none
  | some s => searchContract s.data

/-- The card loop of `readContracts`: for each detected card read its first
line, skip it if the grammar fails, otherwise read the lots line and collect
the parsed contract. -/
def readCards : Nat → Nat → Act (List ContractItem)
  | _, 0 => pure []
  | i, n + 1 => do
    let firstLineText ← textContent (cardSel i)
    match matchContractLine firstLineText with
    | none => readCards (i + 1) n
    | some r => do
      let secondLineText ← textContent (cardLotsSel i)
      let amount := parseCurrency secondLineText
      let rest ← readCards (i + 1) n
      pure ({ type := r.1, leverage := r.2, amount } :: rest)

/-- Try block of `GameActions.readContracts`: absence of the 合約保證金
anchor is a valid empty book; otherwise parse the margin and every card. -/
def readContractsBody : Act (Option ContractData) := do
  pause 2000
  let marginLabelVisible ← isVisibleOrFalse marginLabelSel
  if marginLabelVisible = false then
    pure (some { margin := 0, contracts := [] })
  else do
    let marginText ← textContent marginValueSel
    let margin := parseCurrency marginText
    let count ← countQ contractCardsSel
    let contracts ← readCards 0 count
    pure (some { margin, contracts })

/-- `GameActions.readContracts`: on any exception, best-effort screenshot and
`null`. -/
def readContracts : Act (Option ContractData) :=
  attempt readContractsBody (fun _ => failNone "action-05-read-contracts-error")

/-! ## Action 06: buyStock -/

/-- Try block of `GameActions.buyStock`: validate the lot count locally,
switch to the 現貨 tab and the 買 mode only when needed, clear and refill the
quantity input, stop on a disabled trade button, otherwise click it and
dismiss the confirmation dialog via its second footer button. -/
def buyStockBody (amount : ℚ) : Act Bool := do
  if amount ≤ 0 ∨ amount.isInt = false then pure false
  else do
    waitVisible spotTabSel
    let isSpotActive ← classActiveQ spotTabSel
    (if isSpotActive = false then do
      click spotTabSel
      pause 500
    else pure ())
    waitVisible buyModeSwitchSel
    let switchText ← textContent buyModeSwitchSel
    let isBuyMode := optIncludes switchText "買"
    (if isBuyMode = false then do
      click buyModeSwitchSel
      pause 500
    else pure ())
    waitVisible qtyInputSel
    click qtyInputSel
    pressKey "Backspace"
    fillInput qtyInputSel (toString amount)
    waitVisible buyButtonSel
    let dis ← isDisabledQ buyButtonSel
    if dis then pure false
    else do
      click buyButtonSel
      pause 1000
      waitVisible dialogSel
      let _html ← innerHtml dialogSel
      waitVisible dialogConfirmSel
      let _buttonText ← textContent dialogConfirmSel
      click dialogConfirmSel
      pause 500
      waitHidden dialogSel
      pure true

/-- `GameActions.buyStock`: on any exception, best-effort screenshot and
`false`. -/
def buyStock (amount : ℚ) : Act Bool :=
  attempt (buyStockBody amount) (fun _ => failFalse "action-06-buy-stock-error")

/-- `GameActions.sellStock` is stubbed in the source (`/* TODO */ return
false`). -/
def sellStock (_amount : ℚ) : Act Bool := pure false

/-! ## Action 08: buyContract -/

/-- Try block of `GameActions.buyContract`: validate lots and leverage
locally, switch tab and direction only when needed, fill the two visible
numeric inputs by position, stop on a disabled 下單 button (with a debug
screenshot there), otherwise submit and dismiss the confirmation dialog. -/
def buyContractBody (type : Direction) (leverage amount : ℚ) : Act Bool := do
  if amount ≤ 0 ∨ amount.isInt = false then pure false
  else if leverage ≤ 0 then pure false
  else do
    waitVisible contractTabSel
    let isContractActive ← classActiveQ contractTabSel
    (if isContractActive = false then do
      click contractTabSel
      pause 500
    else pure ())
    waitVisible (directionSel type)
    let isDirectionActive ← classActiveQ (directionSel type)
    (if isDirectionActive = false then do
      click (directionSel type)
      pause 500
    else pure ())
    let _inputCount ← countQ contractInputsSel
    waitVisible (contractInputSel 0)
    focusInput (contractInputSel 0)
    pressKey "Control+A"
    typeText (contractInputSel 0) (toString leverage)
    blurInput (contractInputSel 0)
    pause 800
    waitVisible (contractInputSel 1)
    focusInput (contractInputSel 1)
    pressKey "Control+A"
    typeText (contractInputSel 1) (toString amount)
    blurInput (contractInputSel 1)
    pause 800
    waitVisible orderButtonSel
    let dis ← isDisabledQ orderButtonSel
    let _lv ← inputValueQ (contractInputSel 0)
    let _am ← inputValueQ (contractInputSel 1)
    let _margin ← attempt (textContent marginDisplaySel) (fun _ => pure (some "無法讀取"))
    if dis then do
      shotAttempt "action-08-button-disabled"
      pure false
    else do
      click orderButtonSel
      pause 1000
      waitVisible dialogSel
      waitVisible dialogConfirmSel
      let _buttonText ← textContent dialogConfirmSel
      click dialogConfirmSel
      pause 500
      waitHidden dialogSel
      pure true

/-- `GameActions.buyContract`: on any exception, best-effort screenshot and
`false`. -/
def buyContract (type : Direction) (leverage amount : ℚ) : Act Bool :=
  attempt (buyContractBody type leverage amount) (fun _ => failFalse "action-08-buy-contract-error")

/-! ## Action 09: cancelAllContracts -/

/-- Try block of `GameActions.cancelAllContracts`: read the contract book
first; a `null` read or an empty book short-circuits to success.  Otherwise
switch to the 合約 tab if needed, stop on a disabled cancel button, otherwise
click it, dismiss the confirmation dialog and wait for the settle interval. -/
def cancelAllContractsBody : Act Bool := do
  let beforeData ← readContracts
  match beforeData with
  | none => pure true
  | some d =>
    if d.contracts.isEmpty then pure true
    else do
      waitVisible contractTabSel
      let isContractActive ← classActiveQ contractTabSel
      (if isContractActive = false then do
        click contractTabSel
        pause 500
      else pure ())
      waitVisible cancelButtonSel
      let dis ← isDisabledQ cancelButtonSel
      if dis then pure false
      else do
        click cancelButtonSel
        pause 1000
        waitVisible dialogSel
        waitVisible dialogConfirmSel
        let _buttonText ← textContent dialogConfirmSel
        click dialogConfirmSel
        pause 500
        waitHidden dialogSel
        pause 3000
        pure true

/-- `GameActions.cancelAllContracts`: on any exception, best-effort
screenshot and `false`. -/
def cancelAllContracts : Act Bool :=
  attempt cancelAllContractsBody (fun _ => failFalse "action-09-cancel-contracts-error")

/-! ## Action 10: openLoanShark / closeLoanShark -/

/-- Try block of `GameActions.openLoanShark`: require the home route, click
the 地下錢莊 button, wait for the modal title, check the hash anchor (log
only) and the merchant image (best effort). -/
def openLoanSharkBody : Act Bool := do
  let u ← pageUrl
  if strIncludes u "/home" = false then pure false
  else do
    waitVisible loanButtonSel
    click loanButtonSel
    waitVisible loanModalTitleSel
    pause 500
    let _u2 ← pageUrl
    let _img ← isVisibleOrFalse merchantSel
    pure true

/-- `GameActions.openLoanShark`: on any exception, best-effort screenshot and
`false`. -/
def openLoanShark : Act Bool :=
  attempt openLoanSharkBody (fun _ => failFalse "action-10-open-loan-shark-error")

/-- Try block of `GameActions.closeLoanShark`: trivially succeed when the
modal is already closed, otherwise click the close button and verify the
modal disappeared (plus a hash check that is log-only). -/
def closeLoanSharkBody : Act Bool := do
  let isModalVisible ← isVisibleOrFalse loanModalTitleSel
  if isModalVisible = false then pure true
  else do
    let closeButtonVisible ← isVisibleOrFalse closeButtonSel
    if closeButtonVisible = false then pure false
    else do
      click closeButtonSel
      pause 1000
      let isModalClosed ← isHiddenOrTrue loanModalTitleSel
      if isModalClosed = false then pure false
      else do
        pause 300
        let _u ← pageUrl
        pure true

/-- `GameActions.closeLoanShark`: its catch block logs and returns `false`
(no screenshot). -/
def closeLoanShark : Act Bool := attempt closeLoanSharkBody (fun _ => pure false)

/-! ## Action 11: handleLoan -/

/-- The width scan of `handleLoan` step 4: walk the visible numeric inputs
and pick the first whose computed width is 60px (the loop breaks there). -/
def findWidthInput : Nat → Nat → Act (Option Nat)
  | _, 0 => pure none
  | i, n + 1 => do
    let w ← widthQ (loanInputSel i)
    if w = some "60px" then pure (some i)
    else findWidthInput (i + 1) n

/-- Steps 2 to 4 of the `handleLoan` try block (after the local amount
validation): ensure the modal is open (opening it when needed), read the
borrow/repay switch and toggle it when it does not match the requested
action, locate the amount input (60px width scan with an `nth(1)` fallback)
and fill it through the low-level value setter.  Returns `false` for the
early-failure returns of the source and `true` when the flow continues into
the submit phase. -/
def handleLoanPre (action : LoanAction) (amount : ℚ) : Act Bool := do
  let isModalVisible ← isVisibleOrFalse loanModalTitleSel
  let opened ← if isModalVisible then pure true else openLoanShark
  if opened = false then pure false
  else do
    waitVisible loanModeSwitchSel
    let switchText ← textContent loanModeSwitchSel
    let isBorrowMode := optIncludes switchText "借"
    let needSwitch :=
      (action = LoanAction.BORROW ∧ isBorrowMode = false) ∨
      (action = LoanAction.REPAY ∧ isBorrowMode = true)
    (if needSwitch then do
      click loanModeSwitchSel
      pause 500
    else pure ())
    let inputCount ← countQ loanInputsSel
    let found ← findWidthInput 0 inputCount
    let chosen := match found with | some i => i | none => 1
    waitVisible (loanInputSel chosen)
    let _before ← inputValueQ (loanInputSel chosen)
    setValueEvents (loanInputSel chosen) (toString amount)
    pause 500
    let _after ← inputValueQ (loanInputSel chosen)
    pure true

/-- Shared tail of `handleLoan` after the toast checks: close the modal
(result ignored) and report success. -/
def handleLoanFinish : Act Bool := do
  let _closed ← closeLoanShark
  pure true

/-- Steps 5 to 9 of the `handleLoan` try block: wait for the 借款/還款 submit
button, fail when it is disabled, otherwise click it, dismiss the
confirmation dialog, check the success toast (a missing toast is not a
failure, an error toast is), close the modal and succeed. -/
def handleLoanTail (action : LoanAction) : Act Bool := do
  waitVisible (loanSubmitSel action)
  let dis ← isDisabledQ (loanSubmitSel action)
  if dis then pure false
  else do
    click (loanSubmitSel action)
    pause 1000
    waitVisible dialogSel
    waitVisible dialogConfirmSel
    let _buttonText ← textContent dialogConfirmSel
    click dialogConfirmSel
    pause 500
    waitHidden dialogSel
    let toastVisible ← isVisibleOrFalse toastSuccessSel
    if toastVisible then handleLoanFinish
    else do
      let hasError ← isVisibleOrFalse toastErrorSel
      if hasError then do
        let _msg ← textContent toastErrorSel
        pure false
      else handleLoanFinish

/-- Try block of `GameActions.handleLoan`: local amount validation, then the
modal/mode/fill phase, then the submit phase. -/
def handleLoanBody (action : LoanAction) (amount : ℚ) : Act Bool := do
  if amount ≤ 0 then pure false
  else do
    let cont ← handleLoanPre action amount
    if cont then handleLoanTail action else pure false

/-- `GameActions.handleLoan`: on any exception, best-effort screenshot and
`false`. -/
def handleLoan (action : LoanAction) (amount : ℚ) : Act Bool :=
  attempt (handleLoanBody action amount) (fun _ => failFalse "action-11-handle-loan-error")

/-! ## Action 02: login -/

/-- Try block of `GameActions.login`: navigate to the root, fill the
credentials, submit, wait for the URL to reach the home route, and require a
session token in local storage (a falsy token is a failure). -/
def loginBody (user pass : String) : Act Bool := do
  gotoPage "/"
  fillInput loginUserSel user
  fillInput loginPassSel pass
  click loginSubmitSel
  waitUrl "**/home"
  let token ← evalStorage "token"
  if jsFalsyStr token then pure false
  else pure true

/-- `GameActions.login`: on any exception, best-effort screenshot and
`false`. -/
def login (user pass : String) : Act Bool :=
  attempt (loginBody user pass) (fun _ => failFalse "action-02-login-error")

/-! ## Action 03: changeAvatar -/

/-- The deterministic avatar file name `avatar_XX.webp` built from the index
(`index.toString().padStart(2, "0")`). -/
def avatarFileName (index : ℚ) : String := "avatar_" ++ padStart2 (toString index) ++ ".webp"

/-- Try block of `GameActions.changeAvatar`: validate the index range
locally, open the user menu and the avatar picker (verified through the URL
fragment anchor), force-scroll and force-click the grid cell of the target
file name, save, require the fragment anchor to clear, and treat a
still-unchanged avatar image as a soft success (cache-lag tolerance). -/
def changeAvatarBody (index : ℚ) : Act Bool := do
  if index < 0 ∨ index > 50 then pure false
  else do
    waitVisible avatarAreaSel
    click avatarAreaSel
    pause 500
    waitVisible changeAvatarOptionSel
    click changeAvatarOptionSel
    waitUrl "#avatar-selector"
    waitVisible (avatarCellSel (avatarFileName index))
    scrollIntoView (avatarCellSel (avatarFileName index))
    pause 300
    click (avatarCellSel (avatarFileName index))
    waitVisible saveButtonSel
    click saveButtonSel
    pause 1500
    let currentUrl ← pageUrl
    if strIncludes currentUrl "#avatar-selector" then pure false
    else do
      pause 500
      let avatarSrc ← getAttr avatarImgSel "src"
      if optIncludes avatarSrc (avatarFileName index) then pure true
      else pure true

/-- `GameActions.changeAvatar`: on any exception, best-effort screenshot and
`false`. -/
def changeAvatar (index : ℚ) : Act Bool :=
  attempt (changeAvatarBody index) (fun _ => failFalse "action-03-avatar-error")

/-! ## Action 19: interactWithLoanShark -/

/-- Try block of `GameActions.interactWithLoanShark`: ensure the modal is
open, snapshot the most frequent dialogue-shaped text (the heuristic runs in
the browser via `page.evaluate`, so its output is scripted page behaviour)
before and after force-clicking the merchant image; the change check is
logged only and the action succeeds either way. -/
def interactWithLoanSharkBody : Act Bool := do
  let isModalVisible ← isVisibleOrFalse loanModalTitleSel
  let opened ← if isModalVisible then pure true else openLoanShark
  if opened = false then pure false
  else do
    waitVisible merchantImageSel
    pause 500
    let beforeTexts ← evalTexts dialogueTextsSel
    let beforeDialogue := headOrEmpty beforeTexts
    click merchantImageSel
    pause 1500
    let afterTexts ← evalTexts dialogueTextsSel
    let afterDialogue := headOrEmpty afterTexts
    let _hasChange := (beforeDialogue.trim != afterDialogue.trim) && (afterDialogue.trim != "")
    pure true

/-- `GameActions.interactWithLoanShark`: on any exception, best-effort
screenshot and `false`. -/
def interactWithLoanShark : Act Bool :=
  attempt interactWithLoanSharkBody (fun _ => failFalse "action-19-interact-loan-shark-error")

/-! ## Actions 12 to 14: the quiz flow -/

/-- Try block of `GameActions.waitForQuizStart`: block (without timeout) on
the quiz title, double-check the overlay container is visible and fall back
to clicking the mini-game button when it is not, then require the title to be
visible for the final check. -/
def waitForQuizStartBody : Act Bool := do
  waitVisible quizTitleSel
  let overlayVisible ← isVisibleOrFalse quizOverlaySel
  (if overlayVisible = false then do
    let buttonVisible ← isVisibleOrFalse miniGameButtonSel
    (if buttonVisible then do
      click miniGameButtonSel
      pause 1000
    else pure ())
  else pure ())
  let finalCheck ← isVisibleRaw quizTitleSel
  if finalCheck = false then pure false
  else pure true

/-- `GameActions.waitForQuizStart`: on any exception, best-effort screenshot
and `false`. -/
def waitForQuizStart : Act Bool :=
  attempt waitForQuizStartBody (fun _ => failFalse "action-12-waitForQuizStart-error")

/-- Try block of `GameActions.answerQuiz`: wait out the countdown (a bounded
wait whose failure is swallowed), wait for the option buttons, click the
requested one, read back its disabled state and the submitted hint (both
log-only), and report success. -/
def answerQuizBody (o : QuizOption) : Act Bool := do
  pause 2000
  attempt (waitHidden quizCountdownSel) (fun _ => pure ())
  waitVisible anyOptionButtonSel
  waitVisible (optionButtonSel o)
  let _buttonText ← textContent (optionButtonSel o)
  click (optionButtonSel o)
  pause 800
  let _locked ← isDisabledQ (optionButtonSel o)
  let _hint ← isVisibleOrFalse submittedHintSel
  pure true

/-- `GameActions.answerQuiz`: on any exception, best-effort screenshot and
`false`. -/
def answerQuiz (o : QuizOption) : Act Bool :=
  attempt (answerQuizBody o) (fun _ => failFalse "action-13-answerQuiz-error")

/-- Try block of `GameActions.waitQuizResultAndReport`: check the submitted
hint (log-only), wait for the 正確答案 marker of the result phase (long
bounded wait), settle, then delegate to `readAssets` and forward its
result (`null` stays `null`). -/
def waitQuizResultAndReportBody : Act (Option AssetData) := do
  let _submitted ← isVisibleOrFalse submittedHintSel
  waitVisible quizResultSel
  pause 1000
  let resultAssets ← readAssets
  match resultAssets with
  | none => pure none
  | some a => pure (some a)

/-- `GameActions.waitQuizResultAndReport`: on any exception, best-effort
screenshot and `null`. -/
def waitQuizResultAndReport : Act (Option AssetData) :=
  attempt waitQuizResultAndReportBody (fun _ => failNone "action-14-waitQuizResult-error")

/-! ## Explicitly stubbed methods (`/* TODO */` in the source) -/

def setEmployeeStatus (_isEmployee : Bool) : Act Bool := pure false

def waitForMinorityStart : Act Bool := pure false

def betMinority (_o : QuizOption) (_amount : ℚ) : Act Bool := pure false

def closeBorrowAndReturn : Act Bool := pure false

def waitMinorityResultAndReport : Act (Option AssetData) := pure none

/-! ## Persona decision rules (stress.spec.ts) -/

/-- `randomInt(min, max)` of stress.spec.ts applied to the draw `r` of
`Math.random()`: `Math.floor(r * (max - min + 1)) + min`. -/
def randomInt (lo hi : ℤ) (r : ℚ) : ℤ := ⌊r * ((hi : ℚ) - (lo : ℚ) + 1)⌋ + lo

/-- The trade issued by one iteration of the User A (spot trader) loop. -/
inductive SpotDecision
  | buyStock (lots : ℤ)
  | sellStock (lots : ℤ)
  | hold
deriving DecidableEq

/-- Decision logic of `runUserA` (Step 3.2), for an iteration whose snapshot
read succeeded: with `buyThreshold = stockPrice * 2`, buy
`randomInt(1, min(5, floor(cash / stockPrice)))` lots when
`cash > buyThreshold && stockPrice > 0`, else sell one lot when
`cash <= buyThreshold && stockCount > 0`, else hold.  `r` is the
`Math.random()` draw consumed by `randomInt`. -/
def runUserADecision (cash stockPrice stockCount r : ℚ) : SpotDecision :=
  let buyThreshold := stockPrice * 2
  if cash > buyThreshold ∧ stockPrice > 0 then
    let maxAffordable := ⌊cash / stockPrice⌋
    SpotDecision.buyStock (randomInt 1 (min 5 maxAffordable) r)
  else if cash ≤ buyThreshold ∧ stockCount > 0 then
    SpotDecision.sellStock 1
  else
    SpotDecision.hold

/-- The action issued by one iteration of the User B (contract trader)
loop. -/
inductive ContractDecision
  | cancelAllContracts
  | buyContract (direction : Direction) (leverage : ℤ) (lots : ℤ)
deriving DecidableEq

/-- Decision logic of `runUserB` (Step 3.2): with `rand = Math.random()`,
cancel all contracts when `rand < 0.2`, otherwise open a position whose
direction is `Math.random() > 0.5 ? LONG : SHORT` (draw `rDir`), whose
leverage is `randomInt(1, 5)` (draw `rLev`) and whose lot count is the
constant 1. -/
def runUserBDecision (rand rDir rLev : ℚ) : ContractDecision :=
  if rand < (0.2 : ℚ) then ContractDecision.cancelAllContracts
  else
    ContractDecision.buyContract
      (if rDir > (0.5 : ℚ) then Direction.LONG else Direction.SHORT)
      (randomInt 1 5 rLev) 1

/-! ## Observation helpers for the theorems -/

def isOkE : Except String α → Bool
  | .ok _ => true
  | .error _ => false

/-- The text a `textContent` call reading scripted outcome `k` observes. -/
def respText (sc : Script) (k : Nat) : Option String :=
  match sc.resp k with
  | .ok v => vToText v
  | .throw _ => none

/-- The countdown samples of a `waitForGameStart` run that started at call
index `n`: sample 0 is the first read, sample 1 the second read 2 seconds
later, sample `k + 2` the read of loop iteration `k`; consecutive samples are
taken 2 seconds apart. -/
def sampleAt (sc : Script) (n k : Nat) : Option String := respText sc (n + 2 * k + 1)

/-- Snapshot payload of a `readAssets` outcome (`none` for an error, which
`readAssets` itself never produces). -/
def snapshotOf (x : Except String (Option AssetData)) : Option AssetData :=
  match x with
  | .ok v => v
  | .error _ => none

/-! ## Concrete page behaviours used as witnesses -/

/-- A page on which every primitive call throws. -/
def allThrowScript : Script := ⟨fun _ => .throw "page closed"⟩

/-- A page whose countdown display never changes. -/
def constScript : Script := ⟨fun _ => .ok (.strV (some "00:30"))⟩

/-- A page whose asset panel displays 總資產 100 but 現金, 股票, 股票現值 and
負債 all 0. -/
def c3resps : List Response :=
  [.ok .unitV, .ok .unitV, .ok (.strV (some "$100")), .ok (.strV (some "$0")),
   .ok (.strV (some "0")), .ok (.strV (some "$0")), .ok (.strV (some "$0"))]

def c3script : Script := ⟨fun k => c3resps.getD k (.throw "end of script")⟩

/-- A page driving `handleLoan BORROW` to the disabled-submit failure: the
loan modal is already open, the mode switch shows 還 (so the action clicks
it), one visible numeric input of width 60px receives the amount, and the
借款 submit button reports disabled. -/
def c9resps : List Response :=
  [.ok (.boolV true),
   .ok .unitV,
   .ok (.strV (some "還")),
   .ok .unitV,
   .ok .unitV,
   .ok (.natV 1),
   .ok (.strV (some "60px")),
   .ok .unitV,
   .ok (.strV (some "")),
   .ok .unitV,
   .ok .unitV,
   .ok (.strV (some "100")),
   .ok .unitV,
   .ok (.boolV true)]

def c9script : Script := ⟨fun k => c9resps.getD k (.throw "end of script")⟩

/-- The run state after the modal/mode/fill phase of `handleLoan` on
`c9script`. -/
def c9preState : ActState :=
  ⟨12,
   [⟨.visCall, loanModalTitleSel⟩,
    ⟨.waitVisCall, loanModeSwitchSel⟩,
    ⟨.textCall, loanModeSwitchSel⟩,
    ⟨.clickCall, loanModeSwitchSel⟩,
    ⟨.pauseCall, "500"⟩,
    ⟨.countCall, loanInputsSel⟩,
    ⟨.widthCall, loanInputSel 0⟩,
    ⟨.waitVisCall, loanInputSel 0⟩,
    ⟨.valCall, loanInputSel 0⟩,
    ⟨.setValCall, loanInputSel 0 ++ " <- 100"⟩,
    ⟨.pauseCall, "500"⟩,
    ⟨.valCall, loanInputSel 0⟩]⟩

/-! # Theorems -/

/-! ## Generic run lemmas for the `Act` monad -/

@[simp] theorem run_pure (a : α) (sc : Script) (s : ActState) :
    (pure a : Act α) sc s = (.ok a, s) := rfl

@[simp] theorem run_bind (m : Act α) (f : α → Act β) (sc : Script) (s : ActState) :
    (m >>= f) sc s =
      match m sc s with
      | (.ok a, s1) => f a sc s1
      | (.error e, s1) => (.error e, s1) := rfl

theorem attempt_ok {m : Act α} {h : String → Act α} {sc : Script} {s : ActState}
    {a : α} {s1 : ActState} (hm : m sc s = (.ok a, s1)) :
    attempt m h sc s = (.ok a, s1) := by
  unfold attempt
  rw [hm]

theorem attempt_err {m : Act α} {h : String → Act α} {sc : Script} {s : ActState}
    {e : String} {s1 : ActState} (hm : m sc s = (.error e, s1)) :
    attempt m h sc s = h e sc s1 := by
  unfold attempt
  rw [hm]

theorem attempt_isOk {m : Act α} {h : String → Act α} (sc : Script) (s : ActState)
    (hh : ∀ e sc2 s2, isOkE ((h e) sc2 s2).1 = true) :
    isOkE ((attempt m h) sc s).1 = true := by
  unfold attempt
  rcases hm : m sc s with ⟨r, s1⟩
  cases r with
  | ok a => simp [isOkE]
  | error e => exact hh e sc s1

theorem shotAttempt_run (p : String) (sc : Script) (s : ActState) :
    shotAttempt p sc s = (.ok (), ⟨s.idx + 1, s.trace ++ [⟨.shotCall, p⟩]⟩) := by
  unfold shotAttempt attempt screenshot prim
  cases sc.resp s.idx <;> rfl

theorem failFalse_run (p : String) (sc : Script) (s : ActState) :
    failFalse p sc s = (.ok false, ⟨s.idx + 1, s.trace ++ [⟨.shotCall, p⟩]⟩) := by
  show (shotAttempt p >>= fun _ => pure false) sc s = _
  rw [run_bind, shotAttempt_run]
  rfl

theorem failNone_run (p : String) (sc : Script) (s : ActState) :
    (failNone p : Act (Option α)) sc s = (.ok none, ⟨s.idx + 1, s.trace ++ [⟨.shotCall, p⟩]⟩) := by
  show (shotAttempt p >>= fun _ => pure none) sc s = _
  rw [run_bind, shotAttempt_run]
  rfl

/-! ## C1: parseCurrency -/

theorem takeDigits_no_digit (cs : List Char) (h : ∀ c ∈ cs, c.isDigit = false) :
    takeDigits cs = ([], cs) := by
  cases cs with
  | nil => rfl
  | cons c rest =>
    unfold takeDigits
    rw [h c (List.mem_cons_self c rest)]
    simp

theorem parseDecimal_no_digit (cs : List Char) (h : ∀ c ∈ cs, c.isDigit = false) :
    parseDecimal cs = none := by
  unfold parseDecimal
  rw [takeDigits_no_digit cs h]
  dsimp only
  split
  · rename_i rest2
    rw [takeDigits_no_digit rest2 ?_]
    · simp
    · intro d hd
      exact h d (List.mem_cons_of_mem _ hd)
  · simp

theorem jsParseFloat_no_digit (s : String) (h : ∀ c ∈ s.data, c.isDigit = false) :
    jsParseFloat s = none := by
  unfold jsParseFloat
  split
  · rename_i rest heq
    rw [parseDecimal_no_digit rest (fun d hd => h d (by rw [heq]; exact List.mem_cons_of_mem _ hd))]
    rfl
  · exact parseDecimal_no_digit _ h

theorem stripNonNumeric_idem (s : String) :
    stripNonNumeric (stripNonNumeric s) = stripNonNumeric s := by
  unfold stripNonNumeric
  simp [List.filter_filter]

/-- C1: `parseCurrency` is total and deterministic.  (a) `null` and the empty
string map to exactly 0; (b) any string whose characters, after removing
everything except digits, the dot and the minus sign, do not parse as a
decimal maps to exactly 0 (the `NaN` guard; in particular the function never
propagates `NaN` and, being a total Lean function, never throws); (c) a
string containing no digit maps to exactly 0; (d) for any string, the result
equals the result of parsing its kept digits/sign/decimal-point subsequence
alone, so arbitrary non-numeric decoration around a numeric core does not
change the parsed value. -/
theorem parseCurrency_spec :
    (parseCurrency none = 0 ∧ parseCurrency (some "") = 0)
    ∧ (∀ s : String, jsParseFloat (stripNonNumeric s) = none → parseCurrency (some s) = 0)
    ∧ (∀ s : String, (∀ c ∈ s.data, c.isDigit = false) → parseCurrency (some s) = 0)
    ∧ (∀ s : String, parseCurrency (some s) = parseCurrency (some (stripNonNumeric s))) := by
  refine ⟨⟨rfl, rfl⟩, ?_, ?_, ?_⟩
  · intro s hna
    simp only [parseCurrency]
    by_cases h0 : s = ""
    · simp [h0]
    · rw [if_neg h0, hna]
  · intro s hnd
    simp only [parseCurrency]
    by_cases h0 : s = ""
    · simp [h0]
    · rw [if_neg h0, jsParseFloat_no_digit (stripNonNumeric s) ?_]
      · intro c hc
        refine hnd c ?_
        have hmem : c ∈ s.data.filter isNumericChar := by
          simpa [stripNonNumeric] using hc
        exact (List.mem_filter.mp hmem).1
  · intro s
    by_cases h0 : s = ""
    · subst h0; rfl
    · simp only [parseCurrency]
      rw [if_neg h0]
      by_cases h1 : stripNonNumeric s = ""
      · rw [h1]
        rfl
      · rw [if_neg h1, stripNonNumeric_idem]

/-- C1 witness: the theorem applied at concrete inputs — a digit-free string
parses to 0, and a decorated string parses like its numeric core. -/
theorem parseCurrency_spec_witness :
    parseCurrency (some "$-.") = 0
    ∧ parseCurrency (some "-$1,234.56元") = parseCurrency (some "-1234.56") := by
  constructor
  · exact parseCurrency_spec.2.1 "$-." (by decide)
  · have h := parseCurrency_spec.2.2.2 "-$1,234.56元"
    have hs : stripNonNumeric "-$1,234.56元" = "-1234.56" := by decide
    rw [hs] at h
    exact h

/-! ## C2: no exception crosses the action boundary -/

theorem failFalse_isOk (p : String) (sc : Script) (s : ActState) :
    isOkE ((failFalse p) sc s).1 = true := by
  rw [failFalse_run]
  rfl

theorem failNone_isOk (p : String) (sc : Script) (s : ActState) :
    isOkE ((failNone p : Act (Option α)) sc s).1 = true := by
  rw [failNone_run]
  rfl

/-- C2: every implemented GameActions action method — `waitForGameStart`,
`register`, `login`, `changeAvatar`, `interactWithLoanShark`, `readAssets`,
`readContracts`, `buyStock`, `buyContract`, `cancelAllContracts`,
`openLoanShark`, `closeLoanShark`, `handleLoan`, `waitForQuizStart`,
`answerQuiz`, `waitQuizResultAndReport`, together with the explicitly stubbed
`sellStock`, `setEmployeeStatus`, `waitForMinorityStart`, `betMinority`,
`closeBorrowAndReturn`, `waitMinorityResultAndReport` — yields, for every
input and every scripted page behaviour, a definite `.ok` result (a boolean
or a payload-or-null), never an uncaught error; and when the try block of the
two cited actions (`buyStock`, `register`) throws, the returned value is the
failure `false` for every behaviour of the diagnostic screenshot taken in the
catch block, so a screenshot failure cannot mask the failure result. -/
theorem actions_no_escape (sc : Script) (s : ActState) (amt lv idx : ℚ) (d : Direction)
    (la : LoanAction) (o : QuizOption) (b : Bool) (nick user pass : String) (fuel : Nat) :
    (∀ e s1, buyStockBody amt sc s = (.error e, s1) →
        ((buyStock amt) sc s).1 = .ok false)
    ∧ (∀ e s1, registerBody nick user pass sc s = (.error e, s1) →
        ((register nick user pass) sc s).1 = .ok false)
    ∧ isOkE ((waitForGameStart fuel) sc s).1 = true
    ∧ isOkE ((register nick user pass) sc s).1 = true
    ∧ isOkE ((login user pass) sc s).1 = true
    ∧ isOkE ((changeAvatar idx) sc s).1 = true
    ∧ isOkE (interactWithLoanShark sc s).1 = true
    ∧ isOkE (readAssets sc s).1 = true
    ∧ isOkE (readContracts sc s).1 = true
    ∧ isOkE ((buyStock amt) sc s).1 = true
    ∧ isOkE ((sellStock amt) sc s).1 = true
    ∧ isOkE ((buyContract d lv amt) sc s).1 = true
    ∧ isOkE (cancelAllContracts sc s).1 = true
    ∧ isOkE (openLoanShark sc s).1 = true
    ∧ isOkE (closeLoanShark sc s).1 = true
    ∧ isOkE ((handleLoan la amt) sc s).1 = true
    ∧ isOkE (waitForQuizStart sc s).1 = true
    ∧ isOkE ((answerQuiz o) sc s).1 = true
    ∧ isOkE (waitQuizResultAndReport sc s).1 = true
    ∧ isOkE ((setEmployeeStatus b) sc s).1 = true
    ∧ isOkE (waitForMinorityStart sc s).1 = true
    ∧ isOkE ((betMinority o amt) sc s).1 = true
    ∧ isOkE (closeBorrowAndReturn sc s).1 = true
    ∧ isOkE (waitMinorityResultAndReport sc s).1 = true := by
  refine ⟨?_, ?_, ?_, ?_, ?_, ?_, ?_, ?_, ?_, ?_, ?_, ?_, ?_, ?_, ?_, ?_, ?_, ?_, ?_, ?_,
    ?_, ?_, ?_, ?_⟩
  · intro e s1 hbody
    unfold buyStock
    rw [attempt_err hbody, failFalse_run]
  · intro e s1 hbody
    unfold register
    rw [attempt_err hbody, failFalse_run]
  · exact attempt_isOk sc s (fun e sc2 s2 => rfl)
  · exact attempt_isOk sc s (fun e sc2 s2 => failFalse_isOk _ sc2 s2)
  · exact attempt_isOk sc s (fun e sc2 s2 => failFalse_isOk _ sc2 s2)
  · exact attempt_isOk sc s (fun e sc2 s2 => failFalse_isOk _ sc2 s2)
  · exact attempt_isOk sc s (fun e sc2 s2 => failFalse_isOk _ sc2 s2)
  · exact attempt_isOk sc s (fun e sc2 s2 => failNone_isOk _ sc2 s2)
  · exact attempt_isOk sc s (fun e sc2 s2 => failNone_isOk _ sc2 s2)
  · exact attempt_isOk sc s (fun e sc2 s2 => failFalse_isOk _ sc2 s2)
  · rfl
  · exact attempt_isOk sc s (fun e sc2 s2 => failFalse_isOk _ sc2 s2)
  · exact attempt_isOk sc s (fun e sc2 s2 => failFalse_isOk _ sc2 s2)
  · exact attempt_isOk sc s (fun e sc2 s2 => failFalse_isOk _ sc2 s2)
  · exact attempt_isOk sc s (fun e sc2 s2 => rfl)
  · exact attempt_isOk sc s (fun e sc2 s2 => failFalse_isOk _ sc2 s2)
  · exact attempt_isOk sc s (fun e sc2 s2 => failFalse_isOk _ sc2 s2)
  · exact attempt_isOk sc s (fun e sc2 s2 => failFalse_isOk _ sc2 s2)
  · exact attempt_isOk sc s (fun e sc2 s2 => failNone_isOk _ sc2 s2)
  · rfl
  · rfl
  · rfl
  · rfl
  · rfl

/-- C2 witness: on a page where every primitive call throws, `buyStock 1`
still returns the definite failure `false` (the screenshot in the catch block
throws there too). -/
theorem actions_no_escape_witness :
    (buyStock 1 allThrowScript ⟨0, []⟩).1 = .ok false := by
  have h := actions_no_escape allThrowScript ⟨0, []⟩ 1 1 1 .LONG .BORROW .A true "n" "u" "p" 0
  exact h.1 "page closed" ⟨1, [⟨.waitVisCall, spotTabSel⟩]⟩ rfl

/-! ## C7: readAssets is all-or-nothing -/

/-- C7: whenever any step of the asset read throws (the anchor wait or any of
the five field reads), `readAssets` returns `null`; and its result is always
either `null` or a full five-field snapshot — never a partially filled
one. -/
theorem readAssets_all_or_nothing (sc : Script) (s : ActState) :
    (∀ e s1, readAssetsBody sc s = (.error e, s1) → (readAssets sc s).1 = .ok none)
    ∧ ((readAssets sc s).1 = .ok none ∨ ∃ a : AssetData, (readAssets sc s).1 = .ok (some a)) := by
  constructor
  · intro e s1 hbody
    unfold readAssets
    rw [attempt_err hbody, failNone_run]
  · unfold readAssets
    rcases hm : readAssetsBody sc s with ⟨r, s1⟩
    cases r with
    | ok v =>
      rw [attempt_ok hm]
      cases v with
      | none => exact Or.inl rfl
      | some a => exact Or.inr ⟨a, rfl⟩
    | error e =>
      rw [attempt_err hm, failNone_run]
      exact Or.inl rfl

/-- C7 witness: on a page where the first step throws, `readAssets` returns
`null`. -/
theorem readAssets_all_or_nothing_witness :
    (readAssets allThrowScript ⟨0, []⟩).1 = .ok none := by
  have h := (readAssets_all_or_nothing allThrowScript ⟨0, []⟩).1
  exact h "page closed" ⟨1, [⟨.pauseCall, "2000"⟩]⟩ rfl

/-! ## C6: local input validation fails fast -/

/-- C6: for every non-positive or non-integer lot count, `buyStock` and
`buyContract` return failure with the run state unchanged — no primitive call
is performed, so no UI interaction happens and no screenshot is taken;
likewise `buyContract` for every non-positive leverage and `handleLoan` for
every non-positive amount. -/
theorem input_validation_fail_fast (sc : Script) (s : ActState) (d : Direction)
    (la : LoanAction) :
    (∀ amt : ℚ, amt ≤ 0 ∨ amt.isInt = false → buyStock amt sc s = (.ok false, s))
    ∧ (∀ lv amt : ℚ, amt ≤ 0 ∨ amt.isInt = false → buyContract d lv amt sc s = (.ok false, s))
    ∧ (∀ lv amt : ℚ, lv ≤ 0 → buyContract d lv amt sc s = (.ok false, s))
    ∧ (∀ amt : ℚ, amt ≤ 0 → handleLoan la amt sc s = (.ok false, s)) := by
  refine ⟨?_, ?_, ?_, ?_⟩
  · intro amt h
    unfold buyStock
    refine attempt_ok ?_
    unfold buyStockBody
    rw [if_pos h]
    rfl
  · intro lv amt h
    unfold buyContract
    refine attempt_ok ?_
    unfold buyContractBody
    rw [if_pos h]
    rfl
  · intro lv amt h
    unfold buyContract
    refine attempt_ok ?_
    unfold buyContractBody
    by_cases ha : amt ≤ 0 ∨ amt.isInt = false
    · rw [if_pos ha]
      rfl
    · rw [if_neg ha, if_pos h]
      rfl
  · intro amt h
    unfold handleLoan
    refine attempt_ok ?_
    unfold handleLoanBody
    rw [if_pos h]
    rfl

/-- C6 witness: zero lots, fractional lots, zero leverage and a negative loan
amount all fail with the run state untouched, even on a page where every
primitive call would throw. -/
theorem input_validation_fail_fast_witness :
    buyStock 0 allThrowScript ⟨0, []⟩ = (.ok false, ⟨0, []⟩)
    ∧ buyContract Direction.LONG 2 (mkRat 1 2) allThrowScript ⟨0, []⟩ = (.ok false, ⟨0, []⟩)
    ∧ buyContract Direction.LONG 0 1 allThrowScript ⟨0, []⟩ = (.ok false, ⟨0, []⟩)
    ∧ handleLoan LoanAction.BORROW (-5) allThrowScript ⟨0, []⟩ = (.ok false, ⟨0, []⟩) := by
  have h := input_validation_fail_fast allThrowScript ⟨0, []⟩ Direction.LONG LoanAction.BORROW
  exact ⟨h.1 0 (Or.inl (by norm_num)), h.2.1 2 (mkRat 1 2) (Or.inr (by decide)),
    h.2.2.1 0 1 (by norm_num), h.2.2.2 (-5) (by norm_num)⟩

/-! ## C10: cancelAllContracts on an empty or unreadable book -/

/-- C10: when the preliminary `readContracts` yields `null` (a completely
unreadable book) or an empty book, `cancelAllContracts` returns success with
exactly the run state left by that read — it performs no further UI
interaction, so at the public interface an unreadable book is
indistinguishable from an empty one. -/
theorem cancelAll_empty_or_null (sc : Script) (s : ActState) :
    ((readContracts sc s).1 = .ok none →
      cancelAllContracts sc s = (.ok true, (readContracts sc s).2))
    ∧ (∀ m : ℚ, (readContracts sc s).1 = .ok (some { margin := m, contracts := [] }) →
      cancelAllContracts sc s = (.ok true, (readContracts sc s).2)) := by
  constructor
  · intro hres
    unfold cancelAllContracts
    refine attempt_ok ?_
    unfold cancelAllContractsBody
    rw [run_bind]
    rcases hm : readContracts sc s with ⟨r, s1⟩
    rw [hm] at hres
    simp only at hres
    subst hres
    rfl
  · intro m hres
    unfold cancelAllContracts
    refine attempt_ok ?_
    unfold cancelAllContractsBody
    rw [run_bind]
    rcases hm : readContracts sc s with ⟨r, s1⟩
    rw [hm] at hres
    simp only at hres
    subst hres
    rfl

/-- C10 witness: on a page where every call throws, the preliminary read
fails entirely (`null`), and `cancelAllContracts` still reports success
without any further interaction. -/
theorem cancelAll_empty_or_null_witness :
    cancelAllContracts allThrowScript ⟨0, []⟩ =
      (.ok true, ⟨2, [⟨.pauseCall, "2000"⟩, ⟨.shotCall, "action-05-read-contracts-error"⟩]⟩) := by
  exact (cancelAll_empty_or_null allThrowScript ⟨0, []⟩).1 rfl

/-! ## C9: handleLoan when the submit control is disabled -/

/-- C9 counterexample: on `c9script` the 借款 submit button reports disabled
and `handleLoan` returns failure, but the attempt has already mutated UI
state — the trace of the failing run contains the click that toggled the
borrow/repay mode switch and the write into the amount field, so the attempt
does not leave state unchanged. -/
theorem handleLoan_disabled_counterexample :
    (handleLoan .BORROW 100 c9script ⟨0, []⟩).1 = .ok false
    ∧ Event.mk .disCall (loanSubmitSel .BORROW) ∈ (handleLoan .BORROW 100 c9script ⟨0, []⟩).2.trace
    ∧ Event.mk .clickCall loanModeSwitchSel ∈ (handleLoan .BORROW 100 c9script ⟨0, []⟩).2.trace
    ∧ Event.mk .setValCall (loanInputSel 0 ++ " <- 100") ∈
        (handleLoan .BORROW 100 c9script ⟨0, []⟩).2.trace
    ∧ 0 < ((handleLoan .BORROW 100 c9script ⟨0, []⟩).2.trace.countP mutatingEvent) :=
  ⟨rfl, by decide, by decide, by decide, by decide⟩

/-- C9 amended: when the flow reaches the submit phase and the submit control
reports disabled, `handleLoan` returns failure immediately and performs no
further UI interaction — beyond the preceding modal/mode/fill phase the trace
grows only by the submit-button wait and the disabled query, so no submit
click and no confirmation dialog happen and no loan is initiated; the side
effects already performed by that earlier phase (opening the modal, toggling
the mode switch, writing the amount field) are not rolled back. -/
theorem handleLoan_disabled_no_submit (sc : Script) (s s1 : ActState) (la : LoanAction)
    (amount : ℚ) (hamt : ¬ amount ≤ 0)
    (hpre : handleLoanPre la amount sc s = (.ok true, s1))
    (hwait : (sc.resp s1.idx).isOk = true)
    (hdis : sc.resp (s1.idx + 1) = .ok (.boolV true)) :
    handleLoan la amount sc s =
      (.ok false,
       ⟨s1.idx + 2,
        s1.trace ++ [⟨.waitVisCall, loanSubmitSel la⟩, ⟨.disCall, loanSubmitSel la⟩]⟩) := by
  unfold handleLoan
  refine attempt_ok ?_
  unfold handleLoanBody
  rw [if_neg hamt, run_bind, hpre]
  show handleLoanTail la sc s1 = _
  rcases hv : sc.resp s1.idx with v | msg
  · unfold handleLoanTail
    rw [run_bind]
    simp only [waitVisible, prim, hv]
    rw [run_bind]
    simp only [isDisabledQ, prim, hdis, vToBool]
    simp [List.append_assoc]
  · rw [hv] at hwait
    simp [Response.isOk] at hwait

/-- C9 amended witness: the theorem applied to `c9script`, whose
modal/mode/fill phase ends in state `c9preState` with the submit button
disabled. -/
theorem handleLoan_disabled_no_submit_witness :
    handleLoan .BORROW 100 c9script ⟨0, []⟩ =
      (.ok false,
       ⟨14,
        c9preState.trace ++
          [⟨.waitVisCall, loanSubmitSel .BORROW⟩, ⟨.disCall, loanSubmitSel .BORROW⟩]⟩) := by
  exact handleLoan_disabled_no_submit c9script ⟨0, []⟩ c9preState .BORROW 100
    (by norm_num) rfl rfl rfl

/-! ## C3: the asset snapshot identity -/

theorem snapshotOf_eq_some {x : Except String (Option AssetData)} {a : AssetData}
    (hx : snapshotOf x = some a) : x = .ok (some a) := by
  cases x with
  | ok v => simp only [snapshotOf] at hx; rw [hx]
  | error e => simp [snapshotOf] at hx

/-- C3 counterexample: a page can display 總資產 100 with 現金, 股票現值 and
負債 all 0; `readAssets` returns that snapshot unchanged (it performs no
consistency check), and the snapshot violates the soft identity
`|totalAssets - (cash + stockValue - debt)| < 0.01`. -/
theorem readAssets_identity_counterexample :
    snapshotOf ((readAssets c3script ⟨0, []⟩).1) =
      some { totalAssets := 100, cash := 0, stockValue := 0, stockCount := 0, debt := 0 }
    ∧ ¬ (|(100 : ℚ) - (0 + 0 - 0)| < 1 / 100) := by
  constructor
  · decide
  · norm_num

/-- C3 amended: every snapshot returned by `readAssets` is the componentwise
`parseCurrency` image of the five texts the page displayed during that read,
so the soft identity holds for the returned snapshot exactly when the
displayed values satisfy it — `readAssets` transmits the identity from the
page but does not enforce it. -/
theorem readAssets_faithful (sc : Script) (n : Nat) (tr : List Event) (a : AssetData)
    (h : (readAssets sc ⟨n, tr⟩).1 = .ok (some a)) :
    a.totalAssets = parseCurrency (respText sc (n + 2))
    ∧ a.cash = parseCurrency (respText sc (n + 3))
    ∧ a.stockCount = parseCurrency (respText sc (n + 4))
    ∧ a.stockValue = parseCurrency (respText sc (n + 5))
    ∧ a.debt = parseCurrency (respText sc (n + 6))
    ∧ (|parseCurrency (respText sc (n + 2)) -
          (parseCurrency (respText sc (n + 3)) + parseCurrency (respText sc (n + 5)) -
            parseCurrency (respText sc (n + 6)))| < 1 / 100 →
        |a.totalAssets - (a.cash + a.stockValue - a.debt)| < 1 / 100) := by
  obtain ⟨s1, hm⟩ : ∃ s1, readAssetsBody sc ⟨n, tr⟩ = (.ok (some a), s1) := by
    unfold readAssets at h
    rcases hb : readAssetsBody sc ⟨n, tr⟩ with ⟨r, s1⟩
    cases r with
    | ok v =>
      rw [attempt_ok hb] at h
      simp only [Except.ok.injEq] at h
      exact ⟨s1, by rw [h]⟩
    | error e =>
      rw [attempt_err hb, failNone_run] at h
      simp at h
  unfold readAssetsBody at hm
  rw [run_bind] at hm
  cases h0 : sc.resp n with
  | throw e => simp [pause, prim, h0] at hm
  | ok v0 =>
    simp only [pause, prim, h0] at hm
    rw [run_bind] at hm
    cases h1 : sc.resp (n + 1) with
    | throw e => simp [waitVisible, prim, h1] at hm
    | ok v1 =>
      simp only [waitVisible, prim, h1] at hm
      rw [run_bind] at hm
      cases h2 : sc.resp (n + 2) with
      | throw e => simp [textContent, prim, h2] at hm
      | ok v2 =>
        simp only [textContent, prim, h2] at hm
        rw [run_bind] at hm
        cases h3 : sc.resp (n + 3) with
        | throw e => simp [textContent, prim, h3] at hm
        | ok v3 =>
          simp only [textContent, prim, h3] at hm
          rw [run_bind] at hm
          cases h4 : sc.resp (n + 4) with
          | throw e => simp [textContent, prim, h4] at hm
          | ok v4 =>
            simp only [textContent, prim, h4] at hm
            rw [run_bind] at hm
            cases h5 : sc.resp (n + 5) with
            | throw e => simp [textContent, prim, h5] at hm
            | ok v5 =>
              simp only [textContent, prim, h5] at hm
              rw [run_bind] at hm
              cases h6 : sc.resp (n + 6) with
              | throw e => simp [textContent, prim, h6] at hm
              | ok v6 =>
                simp only [textContent, prim, h6, run_pure] at hm
                simp only [Prod.mk.injEq, Except.ok.injEq, Option.some.injEq] at hm
                rw [← hm.1]
                refine ⟨?_, ?_, ?_, ?_, ?_, ?_⟩ <;>
                  simp [respText, h2, h3, h4, h5, h6]

/-- C3 amended witness: the theorem applied to the `c3script` page. -/
theorem readAssets_faithful_witness :
    (100 : ℚ) = parseCurrency (respText c3script 2)
    ∧ (0 : ℚ) = parseCurrency (respText c3script 3) := by
  have hx : snapshotOf ((readAssets c3script ⟨0, []⟩).1) =
      some { totalAssets := 100, cash := 0, stockValue := 0, stockCount := 0, debt := 0 } := by
    decide
  have h := readAssets_faithful c3script 0 []
    { totalAssets := 100, cash := 0, stockValue := 0, stockCount := 0, debt := 0 }
    (snapshotOf_eq_some hx)
  exact ⟨h.1, h.2.1⟩

/-! ## C8: waitForGameStart -/

theorem gameStartLoop_ok_not_false (second : Option String) :
    ∀ (fuel : Nat) (sc : Script) (s : ActState) (v : Option Bool) (s1 : ActState),
      gameStartLoop second fuel sc s = (.ok v, s1) → v ≠ some false := by
  intro fuel
  induction fuel with
  | zero =>
    intro sc s v s1 h
    unfold gameStartLoop at h
    rw [run_pure] at h
    simp only [Prod.mk.injEq, Except.ok.injEq] at h
    rw [← h.1]
    simp
  | succ k ih =>
    intro sc s v s1 h
    unfold gameStartLoop at h
    rw [run_bind] at h
    cases h0 : sc.resp s.idx with
    | throw e => simp [pause, prim, h0] at h
    | ok v0 =>
      simp only [pause, prim, h0] at h
      rw [run_bind] at h
      cases h1 : sc.resp (s.idx + 1) with
      | throw e => simp [textContent, prim, h1] at h
      | ok v1 =>
        simp only [textContent, prim, h1] at h
        by_cases hne : vToText v1 ≠ second
        · rw [if_pos hne, run_pure] at h
          simp only [Prod.mk.injEq, Except.ok.injEq] at h
          rw [← h.1]
          simp
        · rw [if_neg hne] at h
          exact ih _ _ _ _ h

theorem waitForGameStartBody_ok_not_false (fuel : Nat) (sc : Script) (s : ActState)
    (v : Option Bool) (s1 : ActState) (h : waitForGameStartBody fuel sc s = (.ok v, s1)) :
    v ≠ some false := by
  unfold waitForGameStartBody at h
  rw [run_bind] at h
  cases h0 : sc.resp s.idx with
  | throw e => simp [waitVisible, prim, h0] at h
  | ok v0 =>
    simp only [waitVisible, prim, h0] at h
    rw [run_bind] at h
    cases h1 : sc.resp (s.idx + 1) with
    | throw e => simp [textContent, prim, h1] at h
    | ok v1 =>
      simp only [textContent, prim, h1] at h
      rw [run_bind] at h
      cases h2 : sc.resp (s.idx + 2) with
      | throw e => simp [pause, prim, h2] at h
      | ok v2 =>
        simp only [pause, prim, h2] at h
        rw [run_bind] at h
        cases h3 : sc.resp (s.idx + 3) with
        | throw e => simp [textContent, prim, h3] at h
        | ok v3 =>
          simp only [textContent, prim, h3] at h
          by_cases hne : vToText v1 ≠ vToText v3
          · rw [if_pos hne, run_pure] at h
            simp only [Prod.mk.injEq, Except.ok.injEq] at h
            rw [← h.1]
            simp
          · rw [if_neg hne] at h
            exact gameStartLoop_ok_not_false _ fuel _ _ _ _ h

theorem gameStartLoop_some_true (second : Option String) :
    ∀ (fuel : Nat) (sc : Script) (s : ActState) (s1 : ActState),
      gameStartLoop second fuel sc s = (.ok (some true), s1) →
      ∃ j, respText sc (s.idx + 2 * j + 1) ≠ second
        ∧ ∀ i < j, respText sc (s.idx + 2 * i + 1) = second := by
  intro fuel
  induction fuel with
  | zero =>
    intro sc s s1 h
    unfold gameStartLoop at h
    rw [run_pure] at h
    simp at h
  | succ k ih =>
    intro sc s s1 h
    unfold gameStartLoop at h
    rw [run_bind] at h
    cases h0 : sc.resp s.idx with
    | throw e => simp [pause, prim, h0] at h
    | ok v0 =>
      simp only [pause, prim, h0] at h
      rw [run_bind] at h
      cases h1 : sc.resp (s.idx + 1) with
      | throw e => simp [textContent, prim, h1] at h
      | ok v1 =>
        simp only [textContent, prim, h1] at h
        by_cases hne : vToText v1 ≠ second
        · refine ⟨0, ?_, ?_⟩
          · have hr : respText sc (s.idx + 2 * 0 + 1) = vToText v1 := by
              simp [respText, h1]
            rw [hr]
            exact hne
          · intro i hi
            exact absurd hi (Nat.not_lt_zero i)
        · rw [if_neg hne] at h
          push_neg at hne
          obtain ⟨j, hj, hmin⟩ := ih _ _ _ h
          refine ⟨j + 1, ?_, ?_⟩
          · have hidx : s.idx + 1 + 1 + 2 * j + 1 = s.idx + 2 * (j + 1) + 1 := by ring
            rw [← hidx]
            exact hj
          · intro i hi
            cases i with
            | zero =>
              have hr : respText sc (s.idx + 2 * 0 + 1) = vToText v1 := by
                simp [respText, h1]
              rw [hr]
              exact hne
            | succ i0 =>
              have hidx : s.idx + 2 * (i0 + 1) + 1 = s.idx + 1 + 1 + 2 * i0 + 1 := by ring
              rw [hidx]
              exact hmin i0 (by omega)

theorem waitForGameStartBody_some_true (fuel : Nat) (sc : Script) (n : Nat) (tr : List Event)
    (s1 : ActState) (h : waitForGameStartBody fuel sc ⟨n, tr⟩ = (.ok (some true), s1)) :
    ∃ k, sampleAt sc n k ≠ sampleAt sc n (k + 1) := by
  unfold waitForGameStartBody at h
  rw [run_bind] at h
  cases h0 : sc.resp n with
  | throw e => simp [waitVisible, prim, h0] at h
  | ok v0 =>
    simp only [waitVisible, prim, h0] at h
    rw [run_bind] at h
    cases h1 : sc.resp (n + 1) with
    | throw e => simp [textContent, prim, h1] at h
    | ok v1 =>
      simp only [textContent, prim, h1] at h
      rw [run_bind] at h
      cases h2 : sc.resp (n + 2) with
      | throw e => simp [pause, prim, h2] at h
      | ok v2 =>
        simp only [pause, prim, h2] at h
        rw [run_bind] at h
        cases h3 : sc.resp (n + 3) with
        | throw e => simp [textContent, prim, h3] at h
        | ok v3 =>
          simp only [textContent, prim, h3] at h
          have hs0 : sampleAt sc n 0 = vToText v1 := by
            simp [sampleAt, respText, h1]
          have hs1 : sampleAt sc n 1 = vToText v3 := by
            simp [sampleAt, respText]
            rw [show n + 2 * 1 + 1 = n + 3 by ring, h3]
          by_cases hne : vToText v1 ≠ vToText v3
          · exact ⟨0, by rw [hs0, hs1]; exact hne⟩
          · rw [if_neg hne] at h
            obtain ⟨j, hj, hmin⟩ := gameStartLoop_some_true (vToText v3) fuel sc _ _ h
            simp only at hj hmin
            cases j with
            | zero =>
              refine ⟨1, ?_⟩
              rw [hs1]
              have hidx : n + 4 + 2 * 0 + 1 = n + 2 * 2 + 1 := by ring
              rw [hidx] at hj
              have hs2 : sampleAt sc n (1 + 1) = respText sc (n + 2 * 2 + 1) := rfl
              rw [hs2]
              exact fun hcontra => hj hcontra.symm
            | succ j0 =>
              refine ⟨j0 + 2, ?_⟩
              have hprev : sampleAt sc n (j0 + 2) = vToText v3 := by
                have hidx : n + 2 * (j0 + 2) + 1 = n + 4 + 2 * j0 + 1 := by ring
                unfold sampleAt
                rw [hidx]
                exact hmin j0 (by omega)
              have hcur : sampleAt sc n (j0 + 3) ≠ vToText v3 := by
                have hidx : n + 2 * (j0 + 3) + 1 = n + 4 + 2 * (j0 + 1) + 1 := by ring
                unfold sampleAt
                rw [hidx]
                exact hj
              rw [hprev]
              exact fun hcontra => hcur hcontra.symm

theorem gameStartLoop_const (t : Option String) (sc : Script)
    (hc : ∀ j, sc.resp j = .ok (.strV t)) :
    ∀ (fuel : Nat) (s : ActState), ∃ s1, gameStartLoop t fuel sc s = (.ok none, s1) := by
  intro fuel
  induction fuel with
  | zero =>
    intro s
    exact ⟨s, by unfold gameStartLoop; rw [run_pure]⟩
  | succ k ih =>
    intro s
    unfold gameStartLoop
    rw [run_bind]
    simp only [pause, prim, hc]
    rw [run_bind]
    simp only [textContent, prim, hc, vToText]
    rw [if_neg (by simp)]
    exact ih _

/-- C8: `waitForGameStart` (a) returns `false` only when its try block threw
an exception — never because of a timeout: for every page behaviour and every
observation depth, a `some false` result implies the body raised an error;
(b) it returns `true` only when it observed the countdown text change between
two samples taken 2 seconds apart (`sampleAt` lists the samples in order;
consecutive samples are 2 seconds apart); (c) on a page whose countdown text
never changes and never throws, the action is, at every observation depth,
still waiting (`none`): the re-sampling continues without bound and no
timeout ever produces `false`. -/
theorem waitForGameStart_spec :
    (∀ (sc : Script) (s : ActState) (fuel : Nat),
      (waitForGameStart fuel sc s).1 = .ok (some false) →
      ∃ e s1, waitForGameStartBody fuel sc s = (.error e, s1))
    ∧ (∀ (sc : Script) (n : Nat) (tr : List Event) (fuel : Nat),
      (waitForGameStart fuel sc ⟨n, tr⟩).1 = .ok (some true) →
      ∃ k, sampleAt sc n k ≠ sampleAt sc n (k + 1))
    ∧ (∀ (sc : Script) (t : Option String) (s : ActState) (fuel : Nat),
      (∀ j, sc.resp j = .ok (.strV t)) →
      (waitForGameStart fuel sc s).1 = .ok none) := by
  refine ⟨?_, ?_, ?_⟩
  · intro sc s fuel h
    unfold waitForGameStart at h
    rcases hb : waitForGameStartBody fuel sc s with ⟨r, s1⟩
    cases r with
    | ok v =>
      rw [attempt_ok hb] at h
      simp only [Except.ok.injEq] at h
      exact absurd h (waitForGameStartBody_ok_not_false fuel sc s v s1 hb)
    | error e =>
      exact ⟨e, s1, rfl⟩
  · intro sc n tr fuel h
    unfold waitForGameStart at h
    rcases hb : waitForGameStartBody fuel sc ⟨n, tr⟩ with ⟨r, s1⟩
    cases r with
    | ok v =>
      rw [attempt_ok hb] at h
      simp only [Except.ok.injEq] at h
      rw [h] at hb
      exact waitForGameStartBody_some_true fuel sc n tr s1 hb
    | error e =>
      rw [attempt_err hb] at h
      simp [run_pure] at h
  · intro sc t s fuel hc
    unfold waitForGameStart
    have hbody : ∃ s1, waitForGameStartBody fuel sc s = (.ok none, s1) := by
      unfold waitForGameStartBody
      rw [run_bind]
      simp only [waitVisible, prim, hc]
      rw [run_bind]
      simp only [textContent, prim, hc, vToText]
      rw [run_bind]
      simp only [pause, prim, hc]
      rw [run_bind]
      simp only [textContent, prim, hc, vToText]
      rw [if_neg (by simp)]
      exact gameStartLoop_const t sc hc fuel _
    obtain ⟨s1, hb⟩ := hbody
    rw [attempt_ok hb]

/-- C8 witness: the theorem applied to a page whose countdown never changes —
after three further samples the action is still waiting, not `false`. -/
theorem waitForGameStart_spec_witness :
    (waitForGameStart 3 constScript ⟨0, []⟩).1 = .ok none := by
  exact waitForGameStart_spec.2.2 constScript (some "00:30") ⟨0, []⟩ 3 (fun j => rfl)

/-! ## C4 / C5: persona decision rules -/

theorem randomInt_bounds (m : ℤ) (hm : 1 ≤ m) (r : ℚ) (h0 : 0 ≤ r) (h1 : r < 1) :
    1 ≤ randomInt 1 m r ∧ randomInt 1 m r ≤ m := by
  unfold randomInt
  have he : ((m : ℚ) - ((1 : ℤ) : ℚ) + 1) = (m : ℚ) := by push_cast; ring
  rw [he]
  have hmq : (0 : ℚ) < (m : ℚ) := by exact_mod_cast lt_of_lt_of_le zero_lt_one hm
  constructor
  · have hnn : (0 : ℤ) ≤ ⌊r * (m : ℚ)⌋ := Int.floor_nonneg.mpr (mul_nonneg h0 (le_of_lt hmq))
    omega
  · have hlt : r * (m : ℚ) < (m : ℚ) := by
      calc r * (m : ℚ) < 1 * (m : ℚ) := mul_lt_mul_of_pos_right h1 hmq
        _ = (m : ℚ) := one_mul _
    have hfl : ⌊r * (m : ℚ)⌋ < m := Int.floor_lt.mpr (by exact_mod_cast hlt)
    omega

theorem randomInt_one_five (r : ℚ) (k : ℤ) :
    randomInt 1 5 r = k ↔ ((k : ℚ) - 1) / 5 ≤ r ∧ r < (k : ℚ) / 5 := by
  unfold randomInt
  have he : (((5 : ℤ) : ℚ) - ((1 : ℤ) : ℚ) + 1) = (5 : ℚ) := by norm_num
  rw [he]
  have h5 : (0 : ℚ) < 5 := by norm_num
  constructor
  · intro hk
    have hfl : ⌊r * (5 : ℚ)⌋ = k - 1 := by omega
    obtain ⟨ha, hb⟩ := Int.floor_eq_iff.mp hfl
    constructor
    · rw [div_le_iff₀ h5]
      push_cast at ha
      linarith
    · rw [lt_div_iff₀ h5]
      push_cast at hb
      linarith
  · rintro ⟨ha, hb⟩
    rw [div_le_iff₀ h5] at ha
    rw [lt_div_iff₀ h5] at hb
    have hfl : ⌊r * (5 : ℚ)⌋ = k - 1 := by
      refine Int.floor_eq_iff.mpr ⟨?_, ?_⟩
      · push_cast
        linarith
      · push_cast
        linarith
    omega

/-- C4 counterexample: at `cash = 1000`, `stockPrice = 0`, `stockCount = 5`
the claimed buy guard fails while `stockCount > 0` holds, so the claim as
stated demands `sellStock(1)`; the code, whose sell guard also requires
`cash ≤ 2 * stockPrice`, holds instead. -/
theorem spot_decision_counterexample :
    ¬ ((1000 : ℚ) > 0 * 2 ∧ (0 : ℚ) > 0)
    ∧ (5 : ℚ) > 0
    ∧ runUserADecision 1000 0 5 (1 / 2) = SpotDecision.hold
    ∧ SpotDecision.hold ≠ SpotDecision.sellStock 1 := by
  refine ⟨by norm_num, by norm_num, ?_, by simp⟩
  unfold runUserADecision
  rw [if_neg (by norm_num), if_neg (by norm_num)]

/-- C4 amended: for every iteration with a readable snapshot and random draw
`r ∈ [0, 1)`: when `cash > 2 * stockPrice` and `stockPrice > 0` the decision
is a buy of between 1 and `min(5, floor(cash / stockPrice))` lots (hence at
most 5); otherwise, when additionally `cash ≤ 2 * stockPrice` and
`stockCount > 0`, it is `sellStock(1)`; otherwise — including the degenerate
case `stockPrice ≤ 0` with `cash > 2 * stockPrice` — no trade is issued.
With `cash = 1000` and `stockPrice = 100` the decision is a buy of between 1
and 5 lots. -/
theorem spot_decision_rule (cash stockPrice stockCount r : ℚ) (h0 : 0 ≤ r) (h1 : r < 1) :
    (cash > stockPrice * 2 ∧ stockPrice > 0 →
      ∃ lots : ℤ, runUserADecision cash stockPrice stockCount r = SpotDecision.buyStock lots
        ∧ 1 ≤ lots ∧ lots ≤ min 5 ⌊cash / stockPrice⌋ ∧ lots ≤ 5)
    ∧ (¬ (cash > stockPrice * 2 ∧ stockPrice > 0) → cash ≤ stockPrice * 2 → stockCount > 0 →
      runUserADecision cash stockPrice stockCount r = SpotDecision.sellStock 1)
    ∧ (¬ (cash > stockPrice * 2 ∧ stockPrice > 0) → ¬ (cash ≤ stockPrice * 2 ∧ stockCount > 0) →
      runUserADecision cash stockPrice stockCount r = SpotDecision.hold)
    ∧ (cash = 1000 → stockPrice = 100 →
      ∃ lots : ℤ, runUserADecision cash stockPrice stockCount r = SpotDecision.buyStock lots
        ∧ 1 ≤ lots ∧ lots ≤ 5) := by
  have hbuy : cash > stockPrice * 2 ∧ stockPrice > 0 →
      ∃ lots : ℤ, runUserADecision cash stockPrice stockCount r = SpotDecision.buyStock lots
        ∧ 1 ≤ lots ∧ lots ≤ min 5 ⌊cash / stockPrice⌋ ∧ lots ≤ 5 := by
    intro hc
    have hfl : (2 : ℤ) ≤ ⌊cash / stockPrice⌋ := by
      rw [Int.le_floor]
      rw [show ((2 : ℤ) : ℚ) = 2 by norm_num, le_div_iff₀ hc.2]
      linarith [hc.1]
    have hm : (1 : ℤ) ≤ min 5 ⌊cash / stockPrice⌋ := by omega
    obtain ⟨hlo, hhi⟩ := randomInt_bounds (min 5 ⌊cash / stockPrice⌋) hm r h0 h1
    refine ⟨randomInt 1 (min 5 ⌊cash / stockPrice⌋) r, ?_, hlo, hhi, by omega⟩
    unfold runUserADecision
    rw [if_pos hc]
  refine ⟨hbuy, ?_, ?_, ?_⟩
  · intro hnb hle hcount
    unfold runUserADecision
    rw [if_neg hnb, if_pos ⟨hle, hcount⟩]
  · intro hnb hns
    unfold runUserADecision
    rw [if_neg hnb, if_neg hns]
  · intro hcash hprice
    subst hcash
    subst hprice
    obtain ⟨lots, hdec, hlo, hhi, h5⟩ := hbuy (by norm_num)
    exact ⟨lots, hdec, hlo, h5⟩

/-- C4 amended witness: the theorem applied at the spec's literal scenario
`cash = 1000`, `stockPrice = 100` — the decision is a buy of 1 to 5 lots. -/
theorem spot_decision_rule_witness :
    ∃ lots : ℤ, runUserADecision 1000 100 7 (1 / 2) = SpotDecision.buyStock lots
      ∧ 1 ≤ lots ∧ lots ≤ 5 := by
  exact (spot_decision_rule 1000 100 7 (1 / 2) (by norm_num) (by norm_num)).2.2.2 rfl rfl

/-- C5: with random draw `rand`: when `rand < 0.2` the contract persona
cancels all contracts and never opens a position in that iteration; when
`rand ≥ 0.2` it opens a position for exactly 1 lot whose direction is LONG
exactly when the direction draw exceeds 0.5 (a fair coin on a uniform draw)
and whose leverage is `randomInt(1, 5)`, an integer of `[1, 5]` taking each
value `k` exactly for leverage draws in `[(k-1)/5, k/5)` — uniformly for a
uniform draw. -/
theorem contract_decision_rule (rand rDir rLev : ℚ) (h0 : 0 ≤ rLev) (h1 : rLev < 1) :
    (rand < 0.2 →
      runUserBDecision rand rDir rLev = ContractDecision.cancelAllContracts
      ∧ ∀ (d : Direction) (lev lots : ℤ),
          runUserBDecision rand rDir rLev ≠ ContractDecision.buyContract d lev lots)
    ∧ (0.2 ≤ rand →
      runUserBDecision rand rDir rLev =
        ContractDecision.buyContract (if rDir > 0.5 then Direction.LONG else Direction.SHORT)
          (randomInt 1 5 rLev) 1
      ∧ 1 ≤ randomInt 1 5 rLev ∧ randomInt 1 5 rLev ≤ 5
      ∧ ∀ k : ℤ, 1 ≤ k → k ≤ 5 →
          (randomInt 1 5 rLev = k ↔ ((k : ℚ) - 1) / 5 ≤ rLev ∧ rLev < (k : ℚ) / 5)) := by
  constructor
  · intro hr
    constructor
    · unfold runUserBDecision
      rw [if_pos hr]
    · intro d lev lots
      unfold runUserBDecision
      rw [if_pos hr]
      simp
  · intro hr
    refine ⟨?_, ?_, ?_, ?_⟩
    · unfold runUserBDecision
      rw [if_neg (not_lt.mpr hr)]
    · exact (randomInt_bounds 5 (by norm_num) rLev h0 h1).1
    · exact (randomInt_bounds 5 (by norm_num) rLev h0 h1).2
    · intro k _ _
      exact randomInt_one_five rLev k

/-- C5 witness: the theorem applied at the spec's literal draws — `r = 0.15`
cancels all contracts, `r = 0.5` opens a LONG position (direction draw 0.7)
for 1 lot at a leverage in `[1, 5]`. -/
theorem contract_decision_rule_witness :
    runUserBDecision 0.15 0.7 0.3 = ContractDecision.cancelAllContracts
    ∧ runUserBDecision 0.5 0.7 0.3 =
        ContractDecision.buyContract Direction.LONG (randomInt 1 5 0.3) 1
    ∧ 1 ≤ randomInt 1 5 0.3 ∧ randomInt 1 5 0.3 ≤ 5 := by
  have hA := (contract_decision_rule 0.15 0.7 0.3 (by norm_num) (by norm_num)).1 (by norm_num)
  have hB := (contract_decision_rule 0.5 0.7 0.3 (by norm_num) (by norm_num)).2 (by norm_num)
  refine ⟨hA.1, ?_, hB.2.1, hB.2.2.1⟩
  rw [hB.1, if_pos (by norm_num : (0.7 : ℚ) > 0.5)]

end Stress
